import Mathlib

/-!
Verification development for the hopes_sorrows emotion-classification core
(`analysis/sentiment/advanced_classifier.py` and
`analysis/sentiment/combined_analyzer.py`).

The Python code is shallowly embedded: floats become rationals, the regular
expressions of the pattern library become a small regex AST together with a
backtracking matcher implementing the semantics of Python `re` for exactly
the constructs that occur in the library (literals, alternation tried left
to right, greedy `.*`, greedy `\s+`, the word-boundary assertion and one
negative lookahead), dictionaries keyed by `EmotionCategory` become a
five-field record, and the mutable per-speaker dictionaries become an
explicit state record threaded through the functions.  Free-text
explanation fields and timestamps are not modeled: no claim depends on
their content.
-/

set_option maxHeartbeats 4000000
set_option maxRecDepth 8000

/-- The closed set of emotion categories (`EmotionCategory` in the source). -/
inductive EmotionCategory
  | hope
  | sorrow
  | transformative
  | ambivalent
  | reflective_neutral
deriving DecidableEq

/-- Regex AST covering the constructs used by the pattern library:
literals, sequencing, alternation (tried left to right, as Python does),
greedy `.*`, greedy `\s+`, the zero-width word boundary `\b`, and the
zero-width negative lookahead `(?!...)`. -/
inductive Re
  | lit : List Char → Re
  | seq : Re → Re → Re
  | alt : Re → Re → Re
  | dotStar : Re
  | wsPlus : Re
  | wb : Re
  | negLA : Re → Re
deriving DecidableEq

/-- Python word character for `\b`: `[a-zA-Z0-9_]`. -/
def isWordChar (c : Char) : Bool := c.isAlphanum || c == '_'

/-- Whether a word boundary holds at position `i` of `t`. -/
def boundaryAt (t : List Char) (i : Nat) : Bool :=
  let a := if i = 0 then false else isWordChar (t.getD (i - 1) ' ')
  let b := if i < t.length then isWordChar (t.getD i ' ') else false
  a != b

/-- Whether the literal `p` occurs in `t` starting exactly at position `i`. -/
def litAt : List Char → Nat → List Char → Bool
  | _, _, [] => true
  | t, i, c :: cs => i < t.length && t.getD i ' ' == c && litAt t (i + 1) cs

/-- Python substring containment (`p in t`). -/
def substrIn (p t : List Char) : Bool :=
  (List.range (t.length + 1)).any fun i => litAt t i p

/-- Length of the whitespace run of `t` starting at position `i`. -/
def wsRun (t : List Char) (i : Nat) : Nat :=
  ((t.drop i).takeWhile Char.isWhitespace).length

/-- Backtracking matcher in continuation-passing style.  `mrun re t i k`
attempts to match `re` at position `i` of `t` and passes the end position
of each candidate match to `k`, in exactly the order Python `re` explores
candidates (alternatives left to right, `.*` and `\s+` longest first). -/
def mrun : Re → List Char → Nat → (Nat → Option Nat) → Option Nat
  | Re.lit cs, t, i, k => if litAt t i cs then k (i + cs.length) else none
  | Re.seq a b, t, i, k => mrun a t i fun j => mrun b t j k
  | Re.alt a b, t, i, k =>
      match mrun a t i k with
      | some r => some r
      | none => mrun b t i k
  | Re.dotStar, t, i, k =>
      (List.range (t.length + 1 - i)).findSome? fun d => k (t.length - d)
  | Re.wsPlus, t, i, k =>
      (List.range (wsRun t i)).findSome? fun d => k (i + wsRun t i - d)
  | Re.wb, t, i, k => if boundaryAt t i then k i else none
  | Re.negLA r, t, i, k =>
      match mrun r t i some with
      | some _ => none
      | none => k i

/-- One step of Python `re.finditer`: scan for the leftmost match at or
after position `i`; on a match, continue after its end (all matches of the
library patterns consume at least one character). -/
def findIterAux (re : Re) (t : List Char) : Nat → Nat → List (Nat × Nat)
  | 0, _ => []
  | fuel + 1, i =>
      if i ≤ t.length then
        match mrun re t i some with
        | some j => (i, j) :: findIterAux re t fuel (if i < j then j else i + 1)
        | none => findIterAux re t fuel (i + 1)
      else []

/-- All non-overlapping matches of `re` in `t`, as (start, end) spans, in
the order `re.finditer` yields them. -/
def findIter (re : Re) (t : List Char) : List (Nat × Nat) :=
  findIterAux re t (t.length + 1) 0

/-- Build a literal regex from a string. -/
def rlit (s : String) : Re := Re.lit s.data

/-- Sequence a list of regexes (empty list is the empty literal). -/
def rseq (l : List Re) : Re := l.foldr Re.seq (Re.lit [])

/-- Alternation of a list of regexes, tried left to right. -/
def ralt : List Re → Re
  | [] => Re.lit []
  | [r] => r
  | r :: rest => Re.alt r (ralt rest)

/-- `\b( a | b | ... )\b` — the shape of most library patterns. -/
def wbGroup (l : List Re) : Re := rseq [Re.wb, ralt l, Re.wb]

/-- The apostrophe character, used in a few pattern literals. -/
def apos : Char := Char.ofNat 39

/-- A literal containing one apostrophe between its two halves. -/
def litApos (a b : String) : Re := Re.lit (a.data ++ [apos] ++ b.data)

/-- One weighted linguistic rule (`LinguisticPattern` in the source). -/
structure LinguisticPattern where
  pattern : Re
  weight : ℚ
  category : EmotionCategory
  description : String
deriving DecidableEq

/-- `self.hope_patterns` as constructed in `__init__`. -/
def hope_patterns : List LinguisticPattern := [
  ⟨wbGroup [rlit "happy", rlit "joy", rlit "delighted", rlit "thrilled", rlit "excited",
    rlit "elated"], 0.9, EmotionCategory.hope, "Explicit happiness"⟩,
  ⟨wbGroup [rlit "will", rlit "going to", rlit "plan to", rlit "hope", rlit "dream",
    rlit "wish"], 0.8, EmotionCategory.hope, "Future-oriented language"⟩,
  ⟨wbGroup [rlit "maybe", rlit "could", rlit "might", rlit "possibility", rlit "chance"],
    0.6, EmotionCategory.hope, "Possibility language"⟩,
  ⟨wbGroup [rlit "learn", rlit "grow", rlit "improve", rlit "better", rlit "progress"],
    0.7, EmotionCategory.hope, "Growth language"⟩,
  ⟨wbGroup [rlit "goal", rlit "ambition", rlit "vision", rlit "future", rlit "tomorrow"],
    0.9, EmotionCategory.hope, "Aspiration words"⟩,
  ⟨wbGroup [rlit "excited", rlit "thrilled", rlit "eager", rlit "looking forward",
    litApos "can" "t wait"], 0.8, EmotionCategory.hope, "Excitement indicators"⟩]

/-- `self.sorrow_patterns` as constructed in `__init__`. -/
def sorrow_patterns : List LinguisticPattern := [
  ⟨wbGroup [rlit "sad", rlit "depressed", rlit "miserable", rlit "unhappy", rlit "gloomy",
    rlit "down"], 0.9, EmotionCategory.sorrow, "Explicit sadness"⟩,
  ⟨wbGroup [rlit "lost", rlit "gone", rlit "never again", rlit "no more", rlit "ended"],
    0.8, EmotionCategory.sorrow, "Loss language"⟩,
  ⟨wbGroup [rlit "should have", rlit "if only", rlit "regret", rlit "mistake", rlit "wrong"],
    0.7, EmotionCategory.sorrow, "Regret language"⟩,
  ⟨wbGroup [rlit "hurt", rlit "pain", rlit "broken", rlit "damaged", rlit "wounded"],
    0.9, EmotionCategory.sorrow, "Pain language"⟩,
  ⟨wbGroup [rlit "over", rlit "finished", rlit "done", rlit "impossible", rlit "hopeless"],
    0.8, EmotionCategory.sorrow, "Finality language"⟩,
  ⟨wbGroup [rlit "demolished", rlit "destroyed", rlit "torn down", rlit "knocked down"],
    0.9, EmotionCategory.sorrow, "Destruction language"⟩,
  ⟨wbGroup [rlit "childhood home", rlit "family home", rlit "grew up", rlit "where I lived"],
    0.7, EmotionCategory.sorrow, "Nostalgic places"⟩,
  ⟨wbGroup [rseq [rlit "broke", Re.dotStar, rlit "inside"],
    rseq [rlit "broke", Re.dotStar, rlit "heart"],
    rseq [rlit "something", Re.dotStar, rlit "inside", Re.dotStar, rlit "me"]],
    0.95, EmotionCategory.sorrow, "Internal breaking"⟩,
  ⟨wbGroup [rseq [rlit "watching", Re.dotStar, rlit "demolished"],
    rseq [rlit "seeing", Re.dotStar, rlit "destroyed"],
    rseq [rlit "witnessed", Re.dotStar, rlit "torn"]],
    0.9, EmotionCategory.sorrow, "Witnessing destruction"⟩,
  ⟨rseq [Re.wb, ralt [rlit "memories", rlit "childhood", rlit "growing up"], Re.dotStar,
    Re.wb, ralt [rlit "lost", rlit "gone", rlit "destroyed"], Re.wb],
    0.9, EmotionCategory.sorrow, "Lost memories"⟩,
  ⟨wbGroup [rseq [rlit "home", Re.dotStar, rlit "demolished"],
    rseq [rlit "house", Re.dotStar, rlit "torn"],
    rseq [rlit "building", Re.dotStar, rlit "destroyed"]],
    0.85, EmotionCategory.sorrow, "Home destruction"⟩,
  ⟨wbGroup [rlit "terrified", rlit "scared", rlit "afraid", rlit "frightened", rlit "anxious",
    rlit "worried"], 0.7, EmotionCategory.sorrow, "Fear indicators"⟩]

/-- `self.transformative_patterns` as constructed in `__init__`. -/
def transformative_patterns : List LinguisticPattern := [
  ⟨wbGroup [rlit "learned", rlit "realized", rlit "understand now", rlit "see that"],
    0.8, EmotionCategory.transformative, "Learning language"⟩,
  ⟨wbGroup [rlit "healing", rlit "moving on", rlit "getting better", rlit "finding strength"],
    0.9, EmotionCategory.transformative, "Recovery language"⟩,
  ⟨wbGroup [rlit "growth", rlit "journey", rlit "transformation", rlit "evolution",
    rlit "change for the better"], 0.8, EmotionCategory.transformative, "Personal development"⟩,
  ⟨wbGroup [rlit "overcame", rlit "conquered", rlit "survived", rlit "made it through",
    rlit "came out stronger"], 0.9, EmotionCategory.transformative, "Overcoming language"⟩,
  ⟨wbGroup [rlit "but now", rlit "however now", rlit "although now",
    rseq [rlit "despite that", Re.dotStar, rlit "now"]],
    0.7, EmotionCategory.transformative, "Temporal transition"⟩,
  ⟨wbGroup [rseq [rlit "used to", Re.dotStar, rlit "but now"],
    rseq [rlit "once", Re.dotStar, rlit "but now"],
    rseq [rlit "before", Re.dotStar, rlit "but now"]],
    0.8, EmotionCategory.transformative, "Before/after transition"⟩,
  ⟨rseq [Re.wb, ralt [rlit "death", rlit "loss", rlit "divorce", rlit "tragedy",
    rlit "accident", rlit "illness"], Re.dotStar, Re.wb,
    ralt [rlit "taught", rlit "showed", rlit "learned", rlit "made me", rlit "helped me",
    rlit "forced me"], Re.wb],
    0.95, EmotionCategory.transformative, "Learning from tragedy"⟩,
  ⟨wbGroup [rlit "taught me", rlit "showed me", rlit "made me realize",
    rlit "helped me understand", rlit "forced me to"],
    0.9, EmotionCategory.transformative, "Explicit learning"⟩,
  ⟨rseq [Re.wb, ralt [rlit "devastating", rlit "terrible", rlit "heartbreak", rlit "cancer",
    rlit "losing"], Re.dotStar, Re.wb, ralt [rlit "but", rlit "however", rlit "yet"],
    Re.dotStar, Re.wb, ralt [rlit "discover", rlit "learn", rlit "realize", rlit "understand",
    rlit "appreciate"], Re.wb],
    0.95, EmotionCategory.transformative, "Growth through adversity"⟩,
  ⟨rseq [Re.wb, ralt [rlit "although", rlit "despite", rlit "even though"], Re.dotStar,
    Re.wb, ralt [rlit "ended", rlit "failed", rlit "lost"], Re.dotStar,
    Re.wb, ralt [rlit "learning", rlit "discovering", rlit "finding", rlit "becoming"], Re.wb],
    0.9, EmotionCategory.transformative, "Growth despite loss"⟩,
  ⟨rseq [Re.wb, ralt [rlit "grateful", rlit "thankful"], Re.dotStar,
    Re.wb, ralt [rlit "taught", rlit "showed", rlit "learned"], Re.wb],
    0.8, EmotionCategory.transformative, "Gratitude for lessons"⟩]

/-- `self.ambivalent_patterns` as constructed in `__init__`. -/
def ambivalent_patterns : List LinguisticPattern := [
  ⟨wbGroup [rseq [rlit "excited", Re.dotStar, rlit "but", Re.dotStar, rlit "terrified"],
    rseq [rlit "thrilled", Re.dotStar, rlit "but", Re.dotStar, rlit "scared"],
    rseq [rlit "happy", Re.dotStar, rlit "but", Re.dotStar, rlit "sad"]],
    0.95, EmotionCategory.ambivalent, "Simultaneous opposing emotions"⟩,
  ⟨wbGroup [rseq [rlit "love", Re.dotStar, rlit "but", Re.dotStar, rlit "hate"],
    rseq [rlit "want", Re.dotStar, rlit "but", Re.dotStar, litApos "don" "t"],
    rseq [rlit "yes", Re.dotStar, rlit "but", Re.dotStar, rlit "no"]],
    0.9, EmotionCategory.ambivalent, "Love-hate dynamics"⟩,
  ⟨wbGroup [rseq [rlit "part of me", Re.dotStar, rlit "but", Re.dotStar, rlit "part of me"],
    rseq [rlit "on one hand", Re.dotStar, rlit "on the other"]],
    0.9, EmotionCategory.ambivalent, "Internal conflict"⟩,
  ⟨wbGroup [rseq [rlit "both", Re.dotStar, rlit "and", Re.dotStar],
    rseq [rlit "feels like both", Re.dotStar, rlit "and"],
    rseq [rlit "like both", Re.dotStar, rlit "and"]],
    0.98, EmotionCategory.ambivalent, "Explicit dual emotions"⟩,
  ⟨wbGroup [rseq [rlit "both an adventure and", Re.dotStar, rlit "mistake"],
    rseq [rlit "both", Re.dotStar, rlit "and", Re.dotStar, rlit "terrible"],
    rseq [rlit "both", Re.dotStar, rlit "and", Re.dotStar, rlit "wonderful"]],
    0.99, EmotionCategory.ambivalent, "Both positive and negative"⟩,
  ⟨wbGroup [rlit "mixed feelings", rlit "conflicted", rlit "torn between",
    litApos "can" "t decide"], 0.95, EmotionCategory.ambivalent, "Explicit mixed feelings"⟩,
  ⟨wbGroup [rlit "bittersweet", rlit "love-hate", rlit "push-pull", rlit "back and forth"],
    0.9, EmotionCategory.ambivalent, "Ambivalent descriptors"⟩,
  ⟨wbGroup [rseq [rlit "simultaneously", Re.dotStar, rlit "and"],
    rseq [rlit "at the same time", Re.dotStar, rlit "but"]],
    0.85, EmotionCategory.ambivalent, "Simultaneous feelings"⟩,
  ⟨wbGroup [rseq [rlit "excited", Re.dotStar, rlit "afraid"],
    rseq [rlit "happy", Re.dotStar, rlit "worried"],
    rseq [rlit "hopeful", Re.dotStar, rlit "doubtful"]],
    0.85, EmotionCategory.ambivalent, "Emotional contradictions"⟩,
  ⟨wbGroup [rseq [rlit "want", Re.dotStar, rlit "scared"],
    rseq [rlit "eager", Re.dotStar, rlit "nervous"],
    rseq [rlit "looking forward", Re.dotStar, rlit "dreading"]],
    0.85, EmotionCategory.ambivalent, "Approach-avoidance conflict"⟩,
  ⟨rseq [Re.wb, ralt [rlit "but", rlit "however", rlit "although", rlit "yet", rlit "still"],
    Re.dotStar, Re.wb, ralt [rlit "excited", rlit "scared", rlit "happy", rlit "sad",
    rlit "worried", rlit "thrilled"], Re.wb],
    0.6, EmotionCategory.ambivalent, "Emotional contrasts"⟩,
  ⟨rseq [Re.wb, ralt [rlit "excited", rlit "happy", rlit "thrilled", rlit "eager"], Re.dotStar,
    Re.wb, ralt [rlit "but", rlit "however", rlit "although", rlit "yet"], Re.dotStar,
    Re.wb, ralt [rlit "scared", rlit "afraid", rlit "worried", rlit "nervous",
    rlit "terrified"], Re.wb],
    0.9, EmotionCategory.ambivalent, "Positive-negative emotional contrast"⟩,
  ⟨wbGroup [litApos "don" "t know how to feel",
    rseq [rlit "not sure", Re.dotStar, rlit "feel"],
    rseq [rlit "complicated", Re.dotStar, rlit "emotions"]],
    0.8, EmotionCategory.ambivalent, "Emotional uncertainty"⟩,
  ⟨wbGroup [rlit "should be happy but", rlit "should be excited but", rlit "supposed to feel"],
    0.8, EmotionCategory.ambivalent, "Expected vs actual emotions"⟩,
  ⟨wbGroup [rseq [rlit "love", Re.dotStar, rlit "but", Re.dotStar, rlit "miss"],
    rseq [rlit "want", Re.dotStar, rlit "but", Re.dotStar, rlit "afraid"],
    rseq [rlit "proud", Re.dotStar, rlit "but", Re.dotStar, rlit "guilty"]],
    0.9, EmotionCategory.ambivalent, "Relationship ambivalence"⟩]

/-- `self.reflective_neutral_patterns` as constructed in `__init__`. -/
def reflective_neutral_patterns : List LinguisticPattern := [
  ⟨wbGroup [rlit "thinking about", rlit "pondering", rlit "contemplating", rlit "reflecting on",
    rlit "considering"], 0.8, EmotionCategory.reflective_neutral, "Contemplative processes"⟩,
  ⟨wbGroup [rlit "wonder", rlit "curious", rlit "interesting to note", rlit "worth noting",
    rlit "observe"], 0.7, EmotionCategory.reflective_neutral, "Intellectual curiosity"⟩,
  ⟨wbGroup [rlit "seems", rlit "appears", rlit "looks like", rlit "strikes me",
    rlit "occurs to me"], 0.6, EmotionCategory.reflective_neutral, "Observational language"⟩,
  ⟨rseq [Re.wb, ralt [rlit "questioning", rlit "question", rlit "examine", rlit "reexamine"],
    Re.dotStar, Re.wb, ralt [rlit "values", rlit "beliefs", rlit "assumptions", rlit "faith",
    rlit "principles"], Re.wb],
    0.95, EmotionCategory.reflective_neutral, "Belief examination"⟩,
  ⟨wbGroup [rseq [rlit "what I", Re.dotStar, rlit "believe"],
    rseq [rlit "what I", Re.dotStar, rlit "think"],
    rlit "what really matters",
    rseq [rlit "what", Re.dotStar, rlit "means"]],
    0.9, EmotionCategory.reflective_neutral, "Personal philosophy"⟩,
  ⟨rseq [Re.wb, ralt [rlit "grew up with", rlit "raised to believe", rlit "always thought"],
    Re.dotStar, Re.wb, ralt [rlit "but now", rlit "question", rlit "wonder", rlit "different"],
    Re.wb],
    0.9, EmotionCategory.reflective_neutral, "Belief evolution"⟩,
  ⟨wbGroup [rseq [rlit "find myself", Re.dotStar, rlit "questioning"],
    rseq [rlit "find myself", Re.dotStar, rlit "wondering"],
    rseq [rlit "find myself", Re.dotStar, rlit "thinking"]],
    0.95, EmotionCategory.reflective_neutral, "Self-reflection discovery"⟩,
  ⟨wbGroup [rlit "analyzing", rlit "examining", rlit "evaluating", rlit "assessing",
    rlit "reviewing"], 0.8, EmotionCategory.reflective_neutral, "Analytical processes"⟩,
  ⟨wbGroup [rlit "perspective", rlit "viewpoint", rlit "angle", rlit "way of looking",
    rlit "lens"], 0.7, EmotionCategory.reflective_neutral, "Perspective-taking"⟩,
  ⟨wbGroup [rlit "objectively", rlit "from a distance", rlit "stepping back",
    rlit "big picture"], 0.8, EmotionCategory.reflective_neutral, "Objective stance"⟩,
  ⟨wbGroup [rlit "notice", rlit "observe", rlit "see that", rlit "recognize",
    rlit "acknowledge"], 0.6, EmotionCategory.reflective_neutral, "Neutral observation"⟩,
  ⟨wbGroup [rlit "fact", rlit "reality", rlit "truth", rlit "situation", rlit "circumstances"],
    0.6, EmotionCategory.reflective_neutral, "Factual framing"⟩,
  ⟨wbGroup [rlit "simply", rlit "just", rlit "merely", rlit "basically", rlit "essentially"],
    0.5, EmotionCategory.reflective_neutral, "Simplifying language"⟩,
  ⟨wbGroup [rlit "meaning", rlit "purpose", rlit "significance", rlit "implications",
    rlit "consequences"], 0.75, EmotionCategory.reflective_neutral, "Abstract concepts"⟩,
  ⟨wbGroup [rlit "life", rlit "existence", rlit "human nature", rlit "the way things are",
    rlit "how things work"], 0.7, EmotionCategory.reflective_neutral, "Philosophical topics"⟩,
  ⟨wbGroup [rlit "pattern", rlit "cycle", rlit "process", rlit "system", rlit "mechanism"],
    0.6, EmotionCategory.reflective_neutral, "Systems thinking"⟩,
  ⟨wbGroup [rlit "often wonder", rlit "sometimes think", rlit "makes me wonder",
    rlit "interesting how"], 0.8, EmotionCategory.reflective_neutral, "Contemplative wondering"⟩,
  ⟨wbGroup [rlit "perspective changes", rlit "experience more", rlit "get older",
    rlit "as you"], 0.75, EmotionCategory.reflective_neutral, "Experiential wisdom"⟩,
  ⟨wbGroup [rlit "carefully", rlit "thoughtfully", rlit "deliberately", rlit "methodically",
    rlit "systematically"], 0.7, EmotionCategory.reflective_neutral, "Measured approach"⟩,
  ⟨wbGroup [rlit "balance", rlit "weigh", rlit "consider", rlit "factor in",
    rlit "take into account"], 0.7, EmotionCategory.reflective_neutral, "Balanced thinking"⟩,
  ⟨rseq [Re.wb, ralt [rlit "understand", rlit "comprehend", rlit "grasp", rlit "see",
    rlit "get"], Re.negLA (rseq [Re.wsPlus, ralt [rlit "excited", rlit "happy", rlit "sad",
    rlit "angry", rlit "afraid"]]), Re.wb],
    0.5, EmotionCategory.reflective_neutral, "Neutral understanding"⟩,
  ⟨wbGroup [rlit "makes sense", rlit "reasonable", rlit "logical", rlit "rational",
    rlit "practical"], 0.6, EmotionCategory.reflective_neutral, "Rational evaluation"⟩,
  ⟨wbGroup [rlit "choices", rlit "decisions", rlit "paths",
    rseq [rlit "different", Re.dotStar, rlit "life"], rlit "if I had"],
    0.7, EmotionCategory.reflective_neutral, "Life contemplation"⟩,
  ⟨wbGroup [rseq [rlit "stories", Re.dotStar, rlit "connected"], rlit "meaningful life",
    rseq [rlit "live", Re.dotStar, rlit "meaningful"]],
    0.8, EmotionCategory.reflective_neutral, "Meaning-making"⟩]

/-- The full pattern enumeration, in the order of `_detect_patterns`. -/
def all_patterns : List LinguisticPattern :=
  hope_patterns ++ sorrow_patterns ++ transformative_patterns ++
    ambivalent_patterns ++ reflective_neutral_patterns

/-- The ±20-character context window `text[max(0, s - 20) : min(len(text), e + 20)]`. -/
def windowOf (t : List Char) (s e : Nat) : List Char :=
  (t.drop (s - 20)).take (min t.length (e + 20) - (s - 20))

/-- Python substring containment of a string literal. -/
def sIn (p : String) (t : List Char) : Bool := substrIn p.data t

/-- The context modifier of `_detect_patterns`: a negation marker in the
window forces −1.0 (the `elif` means intensification is never combined
with it); otherwise an intensifier gives 1.5; otherwise 1.0. -/
def contextScore (context : List Char) : ℚ :=
  if sIn "not" context || sIn "never" context then -1.0
  else if sIn "very" context || sIn "really" context then 1.5
  else 1.0

/-- `_detect_patterns`, additionally recording the span of each occurrence. -/
def detect_patterns_spans (text : List Char) :
    List (LinguisticPattern × Nat × Nat × ℚ) :=
  let lowered := text.map Char.toLower
  all_patterns.flatMap fun p =>
    (findIter p.pattern lowered).map fun se =>
      (p, se.1, se.2, p.weight * contextScore (windowOf text se.1 se.2))

/-- `_detect_patterns`: every occurrence of every pattern in the lower-cased
text, paired with its effective score. -/
def detect_patterns (text : List Char) : List (LinguisticPattern × ℚ) :=
  (detect_patterns_spans text).map fun x => (x.1, x.2.2.2)

/-- The per-category accumulator dictionary, in its iteration order
(hope, sorrow, transformative, ambivalent, reflective_neutral). -/
structure CategoryScores where
  hope : ℚ
  sorrow : ℚ
  transformative : ℚ
  ambivalent : ℚ
  reflective_neutral : ℚ
deriving DecidableEq

/-- The all-zero accumulator vector. -/
def zeroScores : CategoryScores := ⟨0, 0, 0, 0, 0⟩

/-- Add a value into the accumulator of one category. -/
def CategoryScores.add (cs : CategoryScores) : EmotionCategory → ℚ → CategoryScores
  | .hope, v => {cs with hope := cs.hope + v}
  | .sorrow, v => {cs with sorrow := cs.sorrow + v}
  | .transformative, v => {cs with transformative := cs.transformative + v}
  | .ambivalent, v => {cs with ambivalent := cs.ambivalent + v}
  | .reflective_neutral, v => {cs with reflective_neutral := cs.reflective_neutral + v}

/-- Summing each match score into the accumulator of its category
(the first loop of `_calculate_category_scores`). -/
def sumScores (ms : List (LinguisticPattern × ℚ)) : CategoryScores :=
  ms.foldl (fun cs m => cs.add m.1.category m.2) zeroScores

/-- `sum(abs(score) for score in scores.values())`. -/
def sumAbs (cs : CategoryScores) : ℚ :=
  |cs.hope| + |cs.sorrow| + |cs.transformative| + |cs.ambivalent| + |cs.reflective_neutral|

/-- Python `max` over a list of rationals (0 on the empty list, which the
source never reaches). -/
def listMax : List ℚ → ℚ
  | [] => 0
  | x :: xs => xs.foldl max x

/-- `_apply_ambivalent_logic`: boost `ambivalent` when hope and sorrow both
exceed 0.3, then double it when some ambivalent-category match scored
above 0.8. -/
def apply_ambivalent_logic (ms : List (LinguisticPattern × ℚ))
    (scores : CategoryScores) : CategoryScores :=
  let scores1 :=
    if scores.hope > 0.3 ∧ scores.sorrow > 0.3 then
      {scores with ambivalent := scores.ambivalent + min scores.hope scores.sorrow * 1.5}
    else scores
  let ambMatches := ms.filter fun m => m.1.category = EmotionCategory.ambivalent
  if ambMatches ≠ [] ∧ listMax (ambMatches.map fun m => m.2) > 0.8 then
    {scores1 with ambivalent := scores1.ambivalent * 2.0}
  else scores1

/-- The normalization step of `_calculate_category_scores`: divide every
accumulator by the total absolute mass when that mass is positive. -/
def normalizeScores (cs : CategoryScores) : CategoryScores :=
  let total := sumAbs cs
  if total > 0 then
    ⟨cs.hope / total, cs.sorrow / total, cs.transformative / total, cs.ambivalent / total,
      cs.reflective_neutral / total⟩
  else cs

/-- `_calculate_category_scores`: sum, ambivalent logic, then normalize. -/
def calculate_category_scores (ms : List (LinguisticPattern × ℚ)) : CategoryScores :=
  normalizeScores (apply_ambivalent_logic ms (sumScores ms))

/-- Python `max(..., key=...)`: the first element attaining the maximum. -/
def pyMaxAux : List (EmotionCategory × ℚ) → (EmotionCategory × ℚ) → EmotionCategory × ℚ
  | [], acc => acc
  | x :: rest, acc => pyMaxAux rest (if x.2 > acc.2 then x else acc)

/-- `max(category_scores.items(), key=lambda x: x[1])` over the dictionary
in its iteration order. -/
def argmaxCategory (cs : CategoryScores) : EmotionCategory × ℚ :=
  pyMaxAux [(EmotionCategory.sorrow, cs.sorrow),
    (EmotionCategory.transformative, cs.transformative),
    (EmotionCategory.ambivalent, cs.ambivalent),
    (EmotionCategory.reflective_neutral, cs.reflective_neutral)]
    (EmotionCategory.hope, cs.hope)

/-- `sorted(category_scores.values(), reverse=True)[1]`: the maximum of the
multiset of accumulators with one copy of the maximum removed. -/
def secondHighest (cs : CategoryScores) : ℚ :=
  let l := [cs.hope, cs.sorrow, cs.transformative, cs.ambivalent, cs.reflective_neutral]
  listMax (l.erase (listMax l))

/-- The confidence computation of `classify_emotion` (lines 371–378 of the
source): clamp into [0.1, 0.95], then a +0.2 bonus capped at 0.98 when the
top accumulator exceeds 1.0. -/
def computeConfidence (cs : CategoryScores) : ℚ :=
  let maxScore := (argmaxCategory cs).2
  let margin := maxScore - secondHighest cs
  let confidence := min 0.95 (max 0.1 (maxScore + margin * 0.3))
  if maxScore > 1.0 then min 0.98 (confidence + 0.2) else confidence

/-- Python `str.strip()`. -/
def stripList (t : List Char) : List Char :=
  ((t.dropWhile Char.isWhitespace).reverse.dropWhile Char.isWhitespace).reverse

/-- Helper for `splitWs`, accumulating the current token reversed. -/
def splitWsAux : List Char → List Char → List (List Char)
  | [], acc => if acc = [] then [] else [acc.reverse]
  | c :: rest, acc =>
      if c.isWhitespace then
        if acc = [] then splitWsAux rest [] else acc.reverse :: splitWsAux rest []
      else splitWsAux rest (c :: acc)

/-- Python `str.split()`: split on whitespace runs, dropping empty tokens. -/
def splitWs (t : List Char) : List (List Char) := splitWsAux t []

/-- ASCII lowercase letter, the `[a-z]` class. -/
def isLowerAZ (c : Char) : Bool := 'a' ≤ c && c ≤ 'z'

/-- The noise shape of 1–3 lowercase letters followed by 3 or more dots. -/
def noiseShape1 (t : List Char) : Bool :=
  let letters := t.takeWhile isLowerAZ
  let rest := t.drop letters.length
  1 ≤ letters.length && letters.length ≤ 3 && 3 ≤ rest.length && rest.all (· == '.')

/-- The noise shape of 1–10 lowercase-or-whitespace characters ending in a
single period. -/
def noiseShape2 (t : List Char) : Bool :=
  t.getLast? == some '.' &&
    (let body := t.dropLast
     1 ≤ body.length && body.length ≤ 10 &&
       body.all fun c => isLowerAZ c || c.isWhitespace)

/-- The noise shape with no letters and no whitespace at all. -/
def noiseShape3 (t : List Char) : Bool :=
  t.all fun c => !(c.isAlpha || c.isWhitespace)

/-- Tail of `noiseShape4`: a possibly-empty run of (whitespace, letter). -/
def noiseShape4Tail : List Char → Bool
  | [] => true
  | w :: c :: rest => w.isWhitespace && isLowerAZ c && noiseShape4Tail rest
  | _ => false

/-- The noise shape of three or more single letters separated by single
whitespace characters. -/
def noiseShape4 : List Char → Bool
  | c1 :: w1 :: c2 :: w2 :: c3 :: rest =>
      isLowerAZ c1 && w1.isWhitespace && isLowerAZ c2 && w2.isWhitespace && isLowerAZ c3 &&
        noiseShape4Tail rest
  | _ => false

/-- The allow-list of common short single words. -/
def common_short_words : List (List Char) :=
  ["yes".data, "no".data, "ok".data, "hi".data, "bye".data, "wow".data, "oh".data,
    "ah".data, "um".data, "uh".data, "you".data]

/-- `max(word_counts.values())`: the largest multiplicity of any token. -/
def maxRepetitions (words : List (List Char)) : Nat :=
  (words.map fun w => words.count w).foldl max 0

/-- Count of characters that are neither alphabetic nor whitespace. -/
def nonAlphaCount (t : List Char) : Nat :=
  (t.filter fun c => !c.isAlpha && !c.isWhitespace).length

/-- `_is_likely_nonsensical`, with its early returns flattened into a
chain of conditionals in the order of the source. -/
def is_likely_nonsensical (text : List Char) : Bool :=
  let textLower := stripList (text.map Char.toLower)
  let words := splitWs textLower
  if words.length = 1 ∧ textLower.length < 4 ∧ textLower ∉ common_short_words then true
  else if 3 ≤ words.length ∧ words.dedup.length ≤ 2 ∧ 4 ≤ words.length then true
  else if 3 ≤ words.length ∧ words.dedup.length ≤ 3 ∧ 6 ≤ words.length ∧
      3 ≤ maxRepetitions words then true
  else if noiseShape1 textLower || noiseShape2 textLower || noiseShape3 textLower ||
      noiseShape4 textLower then true
  else if 0 < text.length ∧ text.length < 2 * nonAlphaCount text then true
  else false

/-- Splice `repl` over the given ascending, non-overlapping spans of `t`,
starting from position `i` (the engine of `re.sub`). -/
def reSubSpans (t repl : List Char) : Nat → List (Nat × Nat) → List Char
  | i, [] => t.drop i
  | i, (s, e) :: rest => (t.drop i).take (s - i) ++ repl ++ reSubSpans t repl e rest

/-- `re.sub(pat, repl, t)`: replace every non-overlapping occurrence. -/
def reSub (pat : Re) (repl : List Char) (t : List Char) : List Char :=
  reSubSpans t repl 0 (findIter pat t)

/-- A word-bounded literal, the shape of every substitution pattern. -/
def wbLit (s : String) : Re := rseq [Re.wb, rlit s, Re.wb]

/-- The `transcription_fixes` table, in iteration order. -/
def transcription_fixes : List (Re × List Char) :=
  [(wbLit "of the past", "over the past".data),
    (wbLit "of my", "over my".data),
    (wbLit "of time", "over time".data),
    (wbLit "thru", "through".data),
    (wbLit "u", "you".data),
    (wbLit "ur", "your".data),
    (wbLit "cuz", "because".data)]

/-- The `tense_normalizations` table, in iteration order. -/
def tense_normalizations : List (Re × List Char) :=
  [(wbLit "realized", "realize".data),
    (wbLit "learned", "learn".data),
    (wbLit "understood", "understand".data),
    (wbLit "recognized", "recognize".data),
    (wbLit "discovered", "discover".data),
    (wbLit "found", "find".data),
    (wbLit "thought", "think".data),
    (wbLit "felt", "feel".data),
    (wbLit "saw", "see".data),
    (wbLit "knew", "know".data)]

/-- Helper for `collapseWs`: the flag records whether the previous
character was whitespace. -/
def collapseWsAux : List Char → Bool → List Char
  | [], _ => []
  | c :: rest, prevWs =>
      if c.isWhitespace then
        if prevWs then collapseWsAux rest true else ' ' :: collapseWsAux rest true
      else c :: collapseWsAux rest false

/-- The whitespace-run substitution: collapse every run to one space. -/
def collapseWs (t : List Char) : List Char := collapseWsAux t false

/-- `_normalize_text_for_classification`: lower-case, apply the
transcription fixes then the tense normalizations, collapse whitespace
and strip. -/
def normalize_text_for_classification (text : List Char) : List Char :=
  let n0 := text.map Char.toLower
  let n1 := transcription_fixes.foldl (fun acc pr => reSub pr.1 pr.2 acc) n0
  let n2 := tense_normalizations.foldl (fun acc pr => reSub pr.1 pr.2 acc) n1
  stripList (collapseWs n2)

/-- The mutable per-speaker dictionaries of the classifier
(`speaker_profiles` and `narrative_arcs`), as an explicit state record.
An absent arc entry is the empty list, matching the lazy initialization. -/
structure ClassifierState where
  speaker_profiles : String → Option (EmotionCategory → ℚ)
  narrative_arcs : String → List EmotionCategory

/-- The state of a freshly constructed classifier. -/
def initialState : ClassifierState := ⟨fun _ => none, fun _ => []⟩

/-- `_get_speaker_calibration`: look up the profile, creating an all-1.0
profile on first use. -/
def get_speaker_calibration (st : ClassifierState) (speakerId : String) :
    (EmotionCategory → ℚ) × ClassifierState :=
  match st.speaker_profiles speakerId with
  | some p => (p, st)
  | none =>
      let p : EmotionCategory → ℚ := fun _ => 1.0
      (p, {st with speaker_profiles :=
        fun s => if s = speakerId then some p else st.speaker_profiles s})

/-- `_detect_narrative_arc`: append the provisional category to the
arc log of the speaker, then score the last five entries. -/
def detect_narrative_arc (st : ClassifierState) (speakerId : String)
    (currentCategory : EmotionCategory) : ℚ × ClassifierState :=
  let arcs := st.narrative_arcs speakerId ++ [currentCategory]
  let st1 : ClassifierState := {st with narrative_arcs :=
    fun s => if s = speakerId then arcs else st.narrative_arcs s}
  let recent := arcs.drop (arcs.length - 5)
  let score : ℚ :=
    if recent.length < 2 then 0.0
    else if 0 < recent.count EmotionCategory.transformative then 0.8
    else if recent.getLast? = some EmotionCategory.hope ∧
        recent.head? = some EmotionCategory.sorrow then 0.7
    else 0.0
  (score, st1)

/-- `update_speaker_profile`: multiply one calibration factor by
`1 + (accuracy − 0.5)`, creating the all-1.0 profile on first use. -/
def update_speaker_profile (st : ClassifierState) (speakerId : String)
    (category : EmotionCategory) (accuracy : ℚ) : ClassifierState :=
  let p := (st.speaker_profiles speakerId).getD fun _ => 1.0
  let p2 : EmotionCategory → ℚ :=
    fun c => if c = category then p c * (1.0 + (accuracy - 0.5)) else p c
  {st with speaker_profiles :=
    fun s => if s = speakerId then some p2 else st.speaker_profiles s}

/-- The result record of a classification.  The free-text explanation and
the timestamp of the source dataclass are not modeled. -/
structure ClassificationResult where
  category : EmotionCategory
  confidence : ℚ
  score : ℚ
  matched_patterns : List (LinguisticPattern × ℚ)
deriving DecidableEq

/-- The no-evidence fallback of `classify_emotion` (total pattern mass
zero): derive category mass from the base sentiment alone. -/
def noPatternFallback (sentimentScore : ℚ) (cs : CategoryScores) : CategoryScores :=
  if sentimentScore < -0.5 then
    {cs with sorrow := 0.8, reflective_neutral := 0.2}
  else if sentimentScore > 0.5 then
    {cs with hope := 0.8, reflective_neutral := 0.2}
  else
    {cs with reflective_neutral := 1.0}

/-- The high-priority ambivalent override: a "both … and" construction
adds 0.5, or 0.8 with a strong polarity word. -/
def bothAndBoost (textLower : List Char) (cs : CategoryScores) : CategoryScores :=
  if sIn "both" textLower && (sIn "and" textLower || sIn "&" textLower) then
    let boost : ℚ :=
      if sIn "adventure" textLower || sIn "mistake" textLower ||
          sIn "terrible" textLower || sIn "wonderful" textLower then 0.8 else 0.5
    {cs with ambivalent := cs.ambivalent + boost}
  else cs

/-- The transformative override: hardship/learning vocabulary adds 0.6. -/
def taughtBoost (textLower : List Char) (cs : CategoryScores) : CategoryScores :=
  if sIn "death" textLower || sIn "taught" textLower || sIn "showed" textLower ||
      sIn "made me" textLower || sIn "forced me" textLower then
    {cs with transformative := cs.transformative + 0.6}
  else cs

/-- The reflective override: explicit questioning language adds 0.7. -/
def questioningBoost (textLower : List Char) (cs : CategoryScores) : CategoryScores :=
  if sIn "questioning" textLower ||
      (sIn "find myself" textLower &&
        (sIn "questioning" textLower || sIn "thinking" textLower ||
          sIn "wondering" textLower)) then
    {cs with reflective_neutral := cs.reflective_neutral + 0.7}
  else cs

/-- The content-safety redaction adjustment, keyed on asterisks in the
original (unnormalized) text. -/
def filteredContentAdjust (text : List Char) (sentimentScore : ℚ)
    (cs : CategoryScores) : CategoryScores :=
  if sIn "***" text || sIn "*" text then
    if sentimentScore < -0.3 then
      {cs with sorrow := cs.sorrow + 0.9, hope := cs.hope * 0.1}
    else
      {cs with reflective_neutral := cs.reflective_neutral + 0.8, hope := cs.hope * 0.2}
  else cs

/-- The sentiment-magnitude gate: only base sentiment beyond ±0.7 adjusts
the hope/sorrow accumulators (±30%). -/
def sentimentGate (sentimentScore : ℚ) (cs : CategoryScores) : CategoryScores :=
  if sentimentScore < -0.7 then
    {cs with sorrow := cs.sorrow * 1.3, hope := cs.hope * 0.7}
  else if sentimentScore > 0.7 then
    {cs with hope := cs.hope * 1.3, sorrow := cs.sorrow * 0.7}
  else cs

/-- Multiply every accumulator by the per-speaker calibration factor. -/
def applyCalibration (calib : EmotionCategory → ℚ) (cs : CategoryScores) : CategoryScores :=
  ⟨cs.hope * calib EmotionCategory.hope, cs.sorrow * calib EmotionCategory.sorrow,
    cs.transformative * calib EmotionCategory.transformative,
    cs.ambivalent * calib EmotionCategory.ambivalent,
    cs.reflective_neutral * calib EmotionCategory.reflective_neutral⟩

/-- The whole scoring pipeline of the main path of `classify_emotion`, from
pattern detection through the narrative-arc bonus, producing the final
category-score vector from which the winner and the confidence are read
off, together with the updated state. -/
def mainCategoryScores (text : List Char) (sentimentScore : ℚ) (speakerId : String)
    (contextWindow : Option (List (List Char))) (st : ClassifierState) :
    CategoryScores × ClassifierState :=
  let textClean := stripList text
  let normalizedText := normalize_text_for_classification textClean
  let ms := detect_patterns normalizedText
  let cs0 := calculate_category_scores ms
  let cs1 := if sumAbs cs0 = 0 then noPatternFallback sentimentScore cs0 else cs0
  let textLower := normalizedText.map Char.toLower
  let cs2 := bothAndBoost textLower cs1
  let cs3 := taughtBoost textLower cs2
  let cs4 := questioningBoost textLower cs3
  let cs5 := filteredContentAdjust text sentimentScore cs4
  let cs6 := sentimentGate sentimentScore cs5
  let pc := get_speaker_calibration st speakerId
  let cs7 := applyCalibration pc.1 cs6
  match contextWindow with
  | some (_ :: _) =>
      let ns := detect_narrative_arc pc.2 speakerId (argmaxCategory cs7).1
      ({cs7 with transformative := cs7.transformative + ns.1}, ns.2)
  | _ => (cs7, pc.2)

/-- `classify_emotion`: the too-short and nonsensical short circuits, then
the main scoring path. -/
def classify_emotion (text : List Char) (sentimentScore : ℚ) (speakerId : String)
    (contextWindow : Option (List (List Char))) (st : ClassifierState) :
    ClassificationResult × ClassifierState :=
  let textClean := stripList text
  if textClean.length < 3 then
    (⟨EmotionCategory.reflective_neutral, 0.1, 0.0, []⟩, st)
  else if is_likely_nonsensical textClean then
    (⟨EmotionCategory.reflective_neutral, 0.2, sentimentScore, []⟩, st)
  else
    let ms := detect_patterns (normalize_text_for_classification textClean)
    let r := mainCategoryScores text sentimentScore speakerId contextWindow st
    (⟨(argmaxCategory r.1).1, computeConfidence r.1, sentimentScore, ms⟩, r.2)

/-!
Embedding of `combined_analyzer.py`.  A single-source sentiment result is
the dictionary contract `{score, label, category, intensity, confidence}`;
the free-text explanation values are not modeled.
-/

/-- One upstream analyzer result (the dictionaries produced by the
transformer and LLM analyzers). -/
structure SAResult where
  score : ℚ
  confidence : ℚ
  category : String
  intensity : ℚ
  label : String
deriving DecidableEq

/-- `CombinationStrategy` of the source. -/
structure CombinedOutput where
  score : ℚ
  confidence : ℚ
  category : String
  intensity : ℚ
  label : String
  analysis_source : String
  combination_strategy : String
  agreement : Option Bool
  primary_source : Option String
deriving DecidableEq

/-- The selectable combination strategies. -/
inductive CombinationStrategy
  | weighted_average
  | highest_confidence
  | transformer_primary
  | llm_primary
  | consensus
deriving DecidableEq

/-- `_score_to_label`: the five-bucket sentiment label. -/
def score_to_label (score : ℚ) : String :=
  if score ≥ 0.6 then "very_positive"
  else if score ≥ 0.2 then "positive"
  else if score ≥ -0.1 then "neutral"
  else if score ≥ -0.3 then "negative"
  else "very_negative"

/-- `_weighted_average_combination` with the fixed source weights 0.6
(transformer) and 0.4 (LLM); the category follows the source with the
higher individual confidence, ties favoring the transformer. -/
def weighted_average_combination (t l : SAResult) : CombinedOutput :=
  let combinedScore := t.score * 0.6 + l.score * 0.4
  let combinedConfidence := t.confidence * 0.6 + l.confidence * 0.4
  let pick := if t.confidence ≥ l.confidence then (t.category, "transformer")
    else (l.category, "llm")
  { score := combinedScore, confidence := combinedConfidence, category := pick.1,
    intensity := |combinedScore|, label := score_to_label combinedScore,
    analysis_source := "combined", combination_strategy := "weighted_average",
    agreement := none, primary_source := some pick.2 }

/-- `_highest_confidence_combination`: adopt the result with the higher
confidence verbatim (ties favor the transformer). -/
def highest_confidence_combination (t l : SAResult) : CombinedOutput :=
  let pick := if t.confidence ≥ l.confidence then (t, "transformer_confident")
    else (l, "llm_confident")
  { score := pick.1.score, confidence := pick.1.confidence, category := pick.1.category,
    intensity := pick.1.intensity, label := pick.1.label,
    analysis_source := pick.2, combination_strategy := "highest_confidence",
    agreement := none, primary_source := none }

/-- `_consensus_combination`: on category agreement, average the scores
and boost confidence by +0.1 capped at 0.95; on disagreement, fall back to
the weighted average with confidence scaled by 0.8. -/
def consensus_combination (t l : SAResult) : CombinedOutput :=
  if t.category = l.category then
    let combinedScore := (t.score + l.score) / 2
    { score := combinedScore,
      confidence := min 0.95 ((t.confidence + l.confidence) / 2 + 0.1),
      category := t.category, intensity := |combinedScore|,
      label := score_to_label combinedScore,
      analysis_source := "consensus", combination_strategy := "consensus",
      agreement := some true, primary_source := none }
  else
    let r := weighted_average_combination t l
    { r with
      confidence := r.confidence * 0.8,
      combination_strategy := "consensus_fallback",
      agreement := some false }

/-- `_transformer_primary_combination`: the transformer result with its
confidence nudged by agreement with the LLM. -/
def transformer_primary_combination (t l : SAResult) : CombinedOutput :=
  { score := t.score,
    confidence := if t.category = l.category then min 0.95 (t.confidence + 0.1)
      else t.confidence * 0.9,
    category := t.category, intensity := t.intensity, label := t.label,
    analysis_source := "transformer_primary", combination_strategy := "transformer_primary",
    agreement := none, primary_source := none }

/-- `_llm_primary_combination`: the LLM result with its confidence nudged
by agreement with the transformer. -/
def llm_primary_combination (t l : SAResult) : CombinedOutput :=
  { score := l.score,
    confidence := if t.category = l.category then min 0.95 (l.confidence + 0.1)
      else l.confidence * 0.9,
    category := l.category, intensity := l.intensity, label := l.label,
    analysis_source := "llm_primary", combination_strategy := "llm_primary",
    agreement := none, primary_source := none }

/-- `_combine_analyses`: dispatch on the configured strategy
(`weighted_average` is the default fall-through). -/
def combine_analyses (strategy : CombinationStrategy) (t l : SAResult) : CombinedOutput :=
  match strategy with
  | .transformer_primary => transformer_primary_combination t l
  | .llm_primary => llm_primary_combination t l
  | .highest_confidence => highest_confidence_combination t l
  | .consensus => consensus_combination t l
  | .weighted_average => weighted_average_combination t l

/-- The combination step of `CombinedSentimentAnalyzer.analyze` (lines
73–85 of the source), given the transformer result and the LLM result when
that analysis succeeded upstream.  When the LLM source is unavailable the
transformer result is copied, tagged as single-source, and its confidence
is multiplied by 1.1 and capped at 0.95 only when it exceeds 0.6. -/
def combined_analyze (strategy : CombinationStrategy) (t : SAResult)
    (lOpt : Option SAResult) : CombinedOutput :=
  match lOpt with
  | none =>
      { score := t.score,
        confidence := if t.confidence > 0.6 then min 0.95 (t.confidence * 1.1)
          else t.confidence,
        category := t.category, intensity := t.intensity, label := t.label,
        analysis_source := "transformer_only", combination_strategy := "fallback",
        agreement := none, primary_source := none }
  | some l => combine_analyses strategy t l

/-!
Helper lemmas shared by the claim theorems.
-/

/-- The confidence computed on the main path always lies in [0.1, 0.98]:
the base value is clamped into [0.1, 0.95] and the strong-pattern bonus is
capped at 0.98. -/
theorem computeConfidence_bounds (cs : CategoryScores) :
    0.1 ≤ computeConfidence cs ∧ computeConfidence cs ≤ 0.98 := by
  simp only [computeConfidence]
  have h1 : (0.1 : ℚ) ≤ min 0.95 (max 0.1 ((argmaxCategory cs).2 +
      ((argmaxCategory cs).2 - secondHighest cs) * 0.3)) :=
    le_min (by norm_num) (le_max_left _ _)
  have h2 : min 0.95 (max 0.1 ((argmaxCategory cs).2 +
      ((argmaxCategory cs).2 - secondHighest cs) * 0.3)) ≤ (0.95 : ℚ) := min_le_left _ _
  split_ifs
  · exact ⟨le_min (by norm_num) (by linarith), min_le_left _ _⟩
  · exact ⟨h1, h2.trans (by norm_num)⟩

/-- C3 (confirmed): for every call to `classify_emotion` — any text, any
base score, any speaker state, with or without a context window — the
returned confidence lies in the closed interval [0.1, 0.98]. -/
theorem C3_confidence_in_range (text : List Char) (sentimentScore : ℚ) (speakerId : String)
    (contextWindow : Option (List (List Char))) (st : ClassifierState) :
    0.1 ≤ (classify_emotion text sentimentScore speakerId contextWindow st).1.confidence ∧
      (classify_emotion text sentimentScore speakerId contextWindow st).1.confidence ≤ 0.98 := by
  simp only [classify_emotion]
  split_ifs
  · norm_num
  · norm_num
  · exact computeConfidence_bounds _

/-- C2 (counterexample): on the too-short short-circuit branch the score
field is the constant 0.0, not the supplied base sentiment: classifying
the text "a" with base score 1/2 returns score 0 ≠ 1/2, so the claim that
every return path carries the base sentiment unchanged is false. -/
theorem C2_counterexample :
    (classify_emotion "a".data (1 / 2) "s" none initialState).1.score ≠ 1 / 2 := by
  with_unfolding_all decide

/-- C2 (amended): for every call whose trimmed text has at least 3
characters — i.e. on the nonsensical short circuit and on the main path,
every return path except the too-short branch — the score field of the
returned result equals the supplied base sentiment unchanged; the
too-short branch instead returns score 0.0. -/
theorem C2_score_preserved_after_length_check (text : List Char) (sentimentScore : ℚ)
    (speakerId : String) (contextWindow : Option (List (List Char))) (st : ClassifierState)
    (h : 3 ≤ (stripList text).length) :
    (classify_emotion text sentimentScore speakerId contextWindow st).1.score =
      sentimentScore := by
  simp only [classify_emotion]
  rw [if_neg (by omega)]
  split_ifs <;> rfl

/-- C2 (witness): the amended theorem applied to the nonsensical text
"abc" (3 characters, not in the allow-list) with base score 1/2. -/
theorem C2_witness :
    3 ≤ (stripList "abc".data).length ∧
      (classify_emotion "abc".data (1 / 2) "s" none initialState).1.score = 1 / 2 :=
  ⟨by decide, C2_score_preserved_after_length_check "abc".data (1 / 2) "s" none initialState
    (by decide)⟩

/-- C7 (counterexample): with the LLM source unavailable and transformer
confidence 1/2 (not above 0.6), the engine leaves the confidence at 1/2
instead of multiplying by 1.1 and capping: the claimed unconditional boost
is false. -/
theorem C7_counterexample :
    (combined_analyze CombinationStrategy.weighted_average
        ⟨0, 1 / 2, "hope", 0, "neutral"⟩ none).confidence = 1 / 2 ∧
      (1 / 2 : ℚ) ≠ min 0.95 (1 / 2 * 1.1) := by
  with_unfolding_all decide

/-- C7 (amended): when the LLM source is unavailable, the engine returns
the transformer result with category, score, intensity and label
unchanged, tagged as single-source fallback — and its confidence is
multiplied by 1.1 and capped at 0.95 only when it exceeds 0.6, being left
unchanged otherwise. -/
theorem C7_single_source_fallback (strategy : CombinationStrategy) (t : SAResult) :
    (combined_analyze strategy t none).category = t.category ∧
      (combined_analyze strategy t none).score = t.score ∧
      (combined_analyze strategy t none).intensity = t.intensity ∧
      (combined_analyze strategy t none).label = t.label ∧
      (combined_analyze strategy t none).analysis_source = "transformer_only" ∧
      (combined_analyze strategy t none).combination_strategy = "fallback" ∧
      (combined_analyze strategy t none).confidence =
        (if t.confidence > 0.6 then min 0.95 (t.confidence * 1.1) else t.confidence) :=
  ⟨rfl, rfl, rfl, rfl, rfl, rfl, rfl⟩

/-- C6 (counterexample): under consensus with agreeing categories and both
input confidences equal to 1, the combined confidence is capped at 0.95,
which is strictly below max(0.1, average) = 1: the claimed lower bound
fails at the top of the input range. -/
theorem C6_counterexample :
    (consensus_combination ⟨0, 1, "hope", 0, "neutral"⟩
        ⟨0, 1, "hope", 0, "neutral"⟩).confidence = 0.95 ∧
      ¬ (max 0.1 ((1 + 1 : ℚ) / 2) ≤
        (consensus_combination ⟨0, 1, "hope", 0, "neutral"⟩
          ⟨0, 1, "hope", 0, "neutral"⟩).confidence) := by
  with_unfolding_all decide

/-- C6 (amended): under the consensus strategy with both inputs carrying
the same category and confidences in [0, 1], the combined confidence is at
least min(0.95, max(0.1, average of the two inputs)) — the claimed lower
bound max(0.1, average) capped at the same 0.95 ceiling — and never
exceeds 0.95. -/
theorem C6_consensus_confidence_bounds (t l : SAResult) (hcat : t.category = l.category)
    (ht0 : 0 ≤ t.confidence) (ht1 : t.confidence ≤ 1)
    (hl0 : 0 ≤ l.confidence) (hl1 : l.confidence ≤ 1) :
    min 0.95 (max 0.1 ((t.confidence + l.confidence) / 2)) ≤
        (consensus_combination t l).confidence ∧
      (consensus_combination t l).confidence ≤ 0.95 := by
  simp only [consensus_combination, if_pos hcat]
  constructor
  · exact min_le_min (le_refl _) (max_le (by linarith) (by linarith))
  · exact min_le_left _ _

/-- C6 (witness): the amended bound at agreeing inputs with confidences
1/2 and 7/10. -/
theorem C6_witness :
    ("hope" : String) = "hope" ∧ (0 : ℚ) ≤ 1 / 2 ∧ (1 / 2 : ℚ) ≤ 1 ∧ (0 : ℚ) ≤ 7 / 10 ∧
        (7 / 10 : ℚ) ≤ 1 ∧
      (min 0.95 (max 0.1 ((1 / 2 + 7 / 10 : ℚ) / 2)) ≤
          (consensus_combination ⟨0, 1 / 2, "hope", 0, "neutral"⟩
            ⟨0, 7 / 10, "hope", 0, "neutral"⟩).confidence ∧
        (consensus_combination ⟨0, 1 / 2, "hope", 0, "neutral"⟩
          ⟨0, 7 / 10, "hope", 0, "neutral"⟩).confidence ≤ 0.95) :=
  ⟨rfl, by norm_num, by norm_num, by norm_num, by norm_num,
    C6_consensus_confidence_bounds ⟨0, 1 / 2, "hope", 0, "neutral"⟩
      ⟨0, 7 / 10, "hope", 0, "neutral"⟩ rfl (by norm_num) (by norm_num) (by norm_num)
      (by norm_num)⟩

/-- Auxiliary for C4: folding matches into the accumulators leaves the
ambivalent accumulator untouched when no match carries that category. -/
theorem sumScores_foldl_amb (ms : List (LinguisticPattern × ℚ)) (acc : CategoryScores)
    (h : ∀ m ∈ ms, m.1.category ≠ EmotionCategory.ambivalent) :
    (ms.foldl (fun cs m => cs.add m.1.category m.2) acc).ambivalent = acc.ambivalent := by
  induction ms generalizing acc with
  | nil => rfl
  | cons m rest ih =>
      rw [List.foldl_cons, ih _ fun x hx => h x (List.mem_cons_of_mem _ hx)]
      have hm := h m (List.mem_cons_self _ _)
      cases hc : m.1.category
      case ambivalent => exact absurd hc hm
      all_goals simp [CategoryScores.add, hc]

/-- C4 (counterexample): for the text "hope lost life meaning fact" the
raw accumulators carry the equal mass 0.8 > 0.3 in hope and sorrow and no
ambivalent-category pattern matches, yet the returned category is not
ambivalent (reflective evidence of mass 2.05 outweighs the 1.2 ambivalence
boost), so the claimed ambivalence law fails. -/
theorem C4_counterexample :
    ((sumScores (detect_patterns (normalize_text_for_classification
          (stripList "hope lost life meaning fact".data)))).hope =
        (sumScores (detect_patterns (normalize_text_for_classification
          (stripList "hope lost life meaning fact".data)))).sorrow ∧
      (0.3 : ℚ) < (sumScores (detect_patterns (normalize_text_for_classification
          (stripList "hope lost life meaning fact".data)))).hope ∧
      (detect_patterns (normalize_text_for_classification
          (stripList "hope lost life meaning fact".data))).filter
        (fun m => m.1.category = EmotionCategory.ambivalent) = []) ∧
      (classify_emotion "hope lost life meaning fact".data 0 "s" none
          initialState).1.category ≠ EmotionCategory.ambivalent := by
  with_unfolding_all decide

/-- C4 (amended): with equal raw accumulator mass strictly above 0.3 in
both hope and sorrow and no ambivalent-category match, the ambivalence
step makes the ambivalent accumulator strictly exceed both the hope and
the sorrow accumulators — but the overall winner can still be another
category (e.g. transformative or reflective_neutral evidence, or a later
override), so "ambivalent beats hope and sorrow", not "ambivalent wins". -/
theorem C4_ambivalent_dominates_hope_sorrow (ms : List (LinguisticPattern × ℚ))
    (heq : (sumScores ms).hope = (sumScores ms).sorrow)
    (hgt : (0.3 : ℚ) < (sumScores ms).hope)
    (hnoamb : ms.filter (fun m => m.1.category = EmotionCategory.ambivalent) = []) :
    (apply_ambivalent_logic ms (sumScores ms)).hope <
        (apply_ambivalent_logic ms (sumScores ms)).ambivalent ∧
      (apply_ambivalent_logic ms (sumScores ms)).sorrow <
        (apply_ambivalent_logic ms (sumScores ms)).ambivalent := by
  have hall : ∀ m ∈ ms, m.1.category ≠ EmotionCategory.ambivalent := by
    intro m hm
    have := List.filter_eq_nil_iff.mp hnoamb m hm
    simpa using this
  have hamb0 : (sumScores ms).ambivalent = 0 := sumScores_foldl_amb ms zeroScores hall
  simp only [apply_ambivalent_logic, hnoamb, ne_eq, not_true_eq_false, false_and, if_false]
  rw [if_pos ⟨hgt, heq ▸ hgt⟩]
  dsimp only
  rw [hamb0, ← heq, min_self]
  constructor <;> linarith

/-- C4 (witness): the amended theorem applied to one happiness match and
one sadness match, each of score 2/5. -/
theorem C4_witness :
    ((sumScores ((hope_patterns.take 1).map (fun p => (p, (2 : ℚ) / 5)) ++
          (sorrow_patterns.take 1).map fun p => (p, (2 : ℚ) / 5))).hope =
        (sumScores ((hope_patterns.take 1).map (fun p => (p, (2 : ℚ) / 5)) ++
          (sorrow_patterns.take 1).map fun p => (p, (2 : ℚ) / 5))).sorrow ∧
      (0.3 : ℚ) < (sumScores ((hope_patterns.take 1).map (fun p => (p, (2 : ℚ) / 5)) ++
          (sorrow_patterns.take 1).map fun p => (p, (2 : ℚ) / 5))).hope ∧
      ((hope_patterns.take 1).map (fun p => (p, (2 : ℚ) / 5)) ++
          (sorrow_patterns.take 1).map fun p => (p, (2 : ℚ) / 5)).filter
        (fun m => m.1.category = EmotionCategory.ambivalent) = []) ∧
      (apply_ambivalent_logic ((hope_patterns.take 1).map (fun p => (p, (2 : ℚ) / 5)) ++
            (sorrow_patterns.take 1).map fun p => (p, (2 : ℚ) / 5))
          (sumScores ((hope_patterns.take 1).map (fun p => (p, (2 : ℚ) / 5)) ++
            (sorrow_patterns.take 1).map fun p => (p, (2 : ℚ) / 5)))).hope <
        (apply_ambivalent_logic ((hope_patterns.take 1).map (fun p => (p, (2 : ℚ) / 5)) ++
            (sorrow_patterns.take 1).map fun p => (p, (2 : ℚ) / 5))
          (sumScores ((hope_patterns.take 1).map (fun p => (p, (2 : ℚ) / 5)) ++
            (sorrow_patterns.take 1).map fun p => (p, (2 : ℚ) / 5)))).ambivalent :=
  ⟨⟨by with_unfolding_all decide, by with_unfolding_all decide,
      by with_unfolding_all decide⟩,
    (C4_ambivalent_dominates_hope_sorrow _ (by with_unfolding_all decide)
      (by with_unfolding_all decide) (by with_unfolding_all decide)).1⟩

/-- Auxiliary for C8: the splitter produces at most one token per input
character (each token is nonempty). -/
theorem splitWsAux_length_le (l : List Char) (acc : List Char) :
    (splitWsAux l acc).length ≤ l.length + 1 ∧
      (acc = [] → (splitWsAux l acc).length ≤ l.length) := by
  induction l generalizing acc with
  | nil => by_cases h : acc = [] <;> simp [splitWsAux, h]
  | cons c rest ih =>
      by_cases hws : c.isWhitespace = true <;> by_cases hacc : acc = []
      · subst hacc
        have ihe := (ih []).2 rfl
        simp only [splitWsAux, hws, if_true, List.length_cons]
        omega
      · have ihe := (ih []).2 rfl
        simp [splitWsAux, hws, hacc]
        omega
      · subst hacc
        have ih1 := (ih [c]).1
        simp [splitWsAux, hws]
        omega
      · have ih1 := (ih (c :: acc)).1
        simp [splitWsAux, hws, hacc]
        omega

/-- Auxiliary for C8: token count is at most the text length. -/
theorem splitWs_length_le (l : List Char) : (splitWs l).length ≤ l.length :=
  (splitWsAux_length_le l []).2 rfl

/-- Auxiliary for C8: stripping never lengthens the text. -/
theorem stripList_length_le (l : List Char) : (stripList l).length ≤ l.length := by
  have h1 : ((l.dropWhile Char.isWhitespace).reverse.dropWhile Char.isWhitespace).length ≤
      (l.dropWhile Char.isWhitespace).reverse.length := (List.dropWhile_sublist _).length_le
  have h2 : (l.dropWhile Char.isWhitespace).length ≤ l.length :=
    (List.dropWhile_sublist _).length_le
  simp only [stripList, List.length_reverse] at *
  omega

/-- C8 (counterexample): "la la la" has 3 whitespace-separated tokens with
a single distinct token, yet the repetition rule in the code requires at least
4 tokens, so the text is not judged nonsensical and classification does
not short-circuit with confidence 0.2 (it takes the main path and returns
confidence 0.95). -/
theorem C8_counterexample :
    3 ≤ (splitWs (stripList ((stripList "la la la".data).map Char.toLower))).length ∧
      (splitWs (stripList ((stripList "la la la".data).map Char.toLower))).dedup.length ≤ 2 ∧
      is_likely_nonsensical (stripList "la la la".data) = false ∧
      (classify_emotion "la la la".data 0 "s" none initialState).1.confidence ≠ 0.2 := by
  refine ⟨by decide, by decide, by decide, ?_⟩
  with_unfolding_all decide

/-- C8 (amended): every text that, after trimming, consists of at least 4
whitespace-separated tokens of which at most 2 are distinct is judged
nonsensical, so `classify_emotion` short-circuits and returns category
reflective_neutral with confidence 0.2, empty matches, and the supplied
base sentiment score (texts of exactly 3 such tokens are not caught by
this rule). -/
theorem C8_repetition_shortcircuit (text : List Char) (sentimentScore : ℚ)
    (speakerId : String) (contextWindow : Option (List (List Char))) (st : ClassifierState)
    (h4 : 4 ≤ (splitWs (stripList ((stripList text).map Char.toLower))).length)
    (h2 : (splitWs (stripList ((stripList text).map Char.toLower))).dedup.length ≤ 2) :
    classify_emotion text sentimentScore speakerId contextWindow st =
      (⟨EmotionCategory.reflective_neutral, 0.2, sentimentScore, []⟩, st) := by
  have hlen : 3 ≤ (stripList text).length := by
    have ha := splitWs_length_le (stripList ((stripList text).map Char.toLower))
    have hb := stripList_length_le ((stripList text).map Char.toLower)
    rw [List.length_map] at hb
    omega
  have hnon : is_likely_nonsensical (stripList text) = true := by
    simp only [is_likely_nonsensical]
    rw [if_neg, if_pos]
    · exact ⟨by omega, h2, h4⟩
    · rintro ⟨h1, -, -⟩
      omega
  simp only [classify_emotion]
  rw [if_neg (by omega), if_pos hnon]

/-- C8 (witness): the amended theorem applied to "ha ha ha ha" (4 tokens,
1 distinct) with base score 1/4. -/
theorem C8_witness :
    (4 ≤ (splitWs (stripList ((stripList "ha ha ha ha".data).map Char.toLower))).length ∧
        (splitWs (stripList
          ((stripList "ha ha ha ha".data).map Char.toLower))).dedup.length ≤ 2) ∧
      classify_emotion "ha ha ha ha".data (1 / 4) "s" none initialState =
        (⟨EmotionCategory.reflective_neutral, 0.2, 1 / 4, []⟩, initialState) :=
  ⟨⟨by decide, by decide⟩,
    C8_repetition_shortcircuit "ha ha ha ha".data (1 / 4) "s" none initialState
      (by decide) (by decide)⟩

/-- Auxiliary for C1: normalization scales the vector to absolute mass 1
whenever the pre-normalization mass is positive. -/
theorem sumAbs_normalize (cs : CategoryScores) (h : 0 < sumAbs cs) :
    sumAbs (normalizeScores cs) = 1 := by
  have hT : sumAbs cs ≠ 0 := ne_of_gt h
  simp only [normalizeScores, if_pos h]
  rw [sumAbs]
  dsimp only
  rw [abs_div, abs_div, abs_div, abs_div, abs_div, abs_of_pos h]
  rw [div_add_div_same, div_add_div_same, div_add_div_same, div_add_div_same]
  show sumAbs cs / sumAbs cs = 1
  exact div_self hT

/-- C1 (counterexample): the text "taught" passes the length and nonsense
pre-checks, yet the final category-score vector of the main path — the one
from which the winner and the confidence are computed — has absolute mass
8/5 ≠ 1, because the transformative override (+0.6 for "taught") is
applied after normalization, which happens inside
`calculate_category_scores`, not as a final step. -/
theorem C1_counterexample :
    3 ≤ (stripList "taught".data).length ∧
      is_likely_nonsensical (stripList "taught".data) = false ∧
      sumAbs (mainCategoryScores "taught".data 0 "s" none initialState).1 ≠ 1 := by
  refine ⟨by decide, by decide, ?_⟩
  with_unfolding_all decide

/-- C1 (amended): normalization — dividing every accumulator by the total
absolute mass — is the final step of `calculate_category_scores`, applied
after match summation and the ambivalence logic but before the priority
overrides, sentiment-magnitude gating, speaker calibration and
narrative-arc bonus; at that stage the absolute values of the vector sum to 1
whenever any rule fired with nonzero net mass, but the later boosts are
not re-normalized, so the final vector need not have absolute mass 1. -/
theorem C1_normalization_inside_calculate (ms : List (LinguisticPattern × ℚ))
    (h : sumAbs (apply_ambivalent_logic ms (sumScores ms)) ≠ 0) :
    sumAbs (calculate_category_scores ms) = 1 := by
  simp only [calculate_category_scores]
  apply sumAbs_normalize
  have h0 : 0 ≤ sumAbs (apply_ambivalent_logic ms (sumScores ms)) := by
    simp only [sumAbs]
    positivity
  exact lt_of_le_of_ne h0 (Ne.symm h)

/-- C1 (witness): the amended theorem applied to a single happiness-pattern
match of score 9/10. -/
theorem C1_normalization_witness :
    sumAbs (apply_ambivalent_logic ((hope_patterns.take 1).map fun p => (p, (9 : ℚ) / 10))
        (sumScores ((hope_patterns.take 1).map fun p => (p, (9 : ℚ) / 10)))) ≠ 0 ∧
      sumAbs (calculate_category_scores
        ((hope_patterns.take 1).map fun p => (p, (9 : ℚ) / 10))) = 1 :=
  ⟨by with_unfolding_all decide,
    C1_normalization_inside_calculate _ (by with_unfolding_all decide)⟩

/-- Auxiliary for C5: an occurrence of a literal is an occurrence of its
first character. -/
theorem substrIn_single_of_cons (c : Char) (p t : List Char)
    (h : substrIn (c :: p) t = true) : substrIn [c] t = true := by
  simp only [substrIn, List.any_eq_true] at h ⊢
  obtain ⟨i, hi, hl⟩ := h
  refine ⟨i, hi, ?_⟩
  simp only [litAt, Bool.and_eq_true] at hl ⊢
  tauto

/-- Auxiliary for C5: a text without "*" contains no "***" either. -/
theorem sIn_star3_eq_false (t : List Char) (h : sIn "*" t = false) :
    sIn "***" t = false := by
  by_contra hc
  rw [Bool.not_eq_false] at hc
  have h3 : substrIn ('*' :: "**".data) t = true := hc
  have h1 : substrIn ['*'] t = true := substrIn_single_of_cons _ _ _ h3
  have : sIn "*" t = true := h1
  rw [this] at h
  exact Bool.noConfusion h

/-- Auxiliary for C5: without asterisks in the original text the
content-safety adjustment is the identity. -/
theorem filteredContentAdjust_id (text : List Char) (s : ℚ) (cs : CategoryScores)
    (h : sIn "*" text = false) : filteredContentAdjust text s cs = cs := by
  simp [filteredContentAdjust, h, sIn_star3_eq_false text h]

/-- Auxiliary for C5: base sentiment within ±0.7 leaves the gate inert. -/
theorem sentimentGate_id (s : ℚ) (cs : CategoryScores) (h : |s| ≤ 0.7) :
    sentimentGate s cs = cs := by
  obtain ⟨hlo, hhi⟩ := abs_le.mp h
  have h1 : ¬ (s < -0.7) := by linarith
  have h2 : ¬ (s > 0.7) := by linarith
  simp only [sentimentGate, if_neg h1, if_neg h2]

/-- Auxiliary for C5: when the normalized pattern mass is nonzero and the
text carries no asterisk, the whole main-path score pipeline is
independent of a base sentiment within ±0.7. -/
theorem mainCategoryScores_sentiment_free (text : List Char) (s1 s2 : ℚ) (spk : String)
    (cw : Option (List (List Char))) (st : ClassifierState)
    (hstar : sIn "*" text = false)
    (hnz : sumAbs (calculate_category_scores (detect_patterns
      (normalize_text_for_classification (stripList text)))) ≠ 0)
    (h1 : |s1| ≤ 0.7) (h2 : |s2| ≤ 0.7) :
    mainCategoryScores text s1 spk cw st = mainCategoryScores text s2 spk cw st := by
  simp only [mainCategoryScores]
  rw [if_neg hnz, if_neg hnz]
  rw [filteredContentAdjust_id _ _ _ hstar, filteredContentAdjust_id _ _ _ hstar]
  rw [sentimentGate_id _ _ h1, sentimentGate_id _ _ h2]

/-- C5 (counterexample): in the text
"hope abcd efgh ijkl mnop not hope" two pattern occurrences fire (+0.8 and
a negated −0.8), so the net category mass is zero and the no-evidence
fallback consults the base sentiment with thresholds ±0.5 — well inside
the claimed ±0.7 gate: base scores 0 and −3/5 yield different categories
(reflective_neutral vs sorrow), refuting the claimed insensitivity. -/
theorem C5_counterexample :
    (detect_patterns (normalize_text_for_classification
        (stripList "hope abcd efgh ijkl mnop not hope".data)) ≠ [] ∧
      sIn "*" "hope abcd efgh ijkl mnop not hope".data = false ∧
      |(0 : ℚ)| ≤ 0.7 ∧ |(-3 / 5 : ℚ)| ≤ 0.7) ∧
      (classify_emotion "hope abcd efgh ijkl mnop not hope".data 0 "s" none
          initialState).1.category ≠
        (classify_emotion "hope abcd efgh ijkl mnop not hope".data (-3 / 5) "s" none
          initialState).1.category := by
  refine ⟨⟨?_, by decide, by rw [abs_le]; constructor <;> norm_num,
    by rw [abs_le]; constructor <;> norm_num⟩, ?_⟩
  · with_unfolding_all decide
  · with_unfolding_all decide

/-- C5 (amended): for every text on which at least one pattern fires with
nonzero net category mass after `calculate_category_scores` (ruling out
exact cancellation, which routes through the sentiment-driven no-evidence
fallback) and whose original text contains no asterisk, two calls
identical except for the base sentiment score, both within ±0.7, return
the same category and the same confidence. -/
theorem C5_sentiment_below_gate_irrelevant (text : List Char) (s1 s2 : ℚ) (spk : String)
    (cw : Option (List (List Char))) (st : ClassifierState)
    (hfires : detect_patterns (normalize_text_for_classification (stripList text)) ≠ [])
    (hstar : sIn "*" text = false)
    (hnz : sumAbs (calculate_category_scores (detect_patterns
      (normalize_text_for_classification (stripList text)))) ≠ 0)
    (h1 : |s1| ≤ 0.7) (h2 : |s2| ≤ 0.7) :
    (classify_emotion text s1 spk cw st).1.category =
        (classify_emotion text s2 spk cw st).1.category ∧
      (classify_emotion text s1 spk cw st).1.confidence =
        (classify_emotion text s2 spk cw st).1.confidence := by
  simp only [classify_emotion]
  split_ifs
  · exact ⟨rfl, rfl⟩
  · exact ⟨rfl, rfl⟩
  · rw [mainCategoryScores_sentiment_free text s1 s2 spk cw st hstar hnz h1 h2]
    exact ⟨rfl, rfl⟩

/-- C5 (witness): the amended theorem applied to the text "dream" (one
hope match of mass 0.8, normalized mass 1) with base scores 0 and 1/2. -/
theorem C5_witness :
    (detect_patterns (normalize_text_for_classification (stripList "dream".data)) ≠ [] ∧
      sIn "*" "dream".data = false ∧
      sumAbs (calculate_category_scores (detect_patterns
        (normalize_text_for_classification (stripList "dream".data)))) ≠ 0 ∧
      |(0 : ℚ)| ≤ 0.7 ∧ |(1 / 2 : ℚ)| ≤ 0.7) ∧
      (classify_emotion "dream".data 0 "s" none initialState).1.category =
        (classify_emotion "dream".data (1 / 2) "s" none initialState).1.category :=
  ⟨⟨by with_unfolding_all decide, by decide, by with_unfolding_all decide,
      by norm_num, by rw [abs_le]; constructor <;> norm_num⟩,
    (C5_sentiment_below_gate_irrelevant "dream".data 0 (1 / 2) "s" none initialState
      (by with_unfolding_all decide) (by decide) (by with_unfolding_all decide)
      (by norm_num) (by rw [abs_le]; constructor <;> norm_num)).1⟩

/-- Auxiliary for C9: looking up a speaker profile right after a lookup
that may have created it returns the same profile and state. -/
theorem get_speaker_calibration_stable (st : ClassifierState) (spk : String) :
    get_speaker_calibration (get_speaker_calibration st spk).2 spk =
      get_speaker_calibration st spk := by
  cases h : st.speaker_profiles spk with
  | some p => simp [get_speaker_calibration, h]
  | none => simp [get_speaker_calibration, h]

/-- Auxiliary for C9: with no context window, running the main scoring
pipeline from the state it itself produced changes nothing. -/
theorem mainCategoryScores_none_stable (text : List Char) (s : ℚ) (spk : String)
    (st : ClassifierState) :
    mainCategoryScores text s spk none (mainCategoryScores text s spk none st).2 =
      mainCategoryScores text s spk none st := by
  have hsnd : (mainCategoryScores text s spk none st).2 =
      (get_speaker_calibration st spk).2 := rfl
  rw [hsnd]
  simp only [mainCategoryScores]
  rw [get_speaker_calibration_stable st spk]

/-- C9 (counterexample): classification itself appends to the per-speaker
narrative arc when a context window is supplied: two identical calls for
the text "healing" with a context window return confidence 0.95 and then
0.98 (the second call sees the transformative arc entry contributed by the
first and earns the +0.8 arc bonus), so idempotence fails even with no
intervening `update_speaker_profile` call. -/
theorem C9_counterexample :
    (classify_emotion "healing".data 0 "s" (some [['x']]) initialState).1.confidence ≠
      (classify_emotion "healing".data 0 "s" (some [['x']])
        (classify_emotion "healing".data 0 "s" (some [['x']]) initialState).2).1.confidence := by
  with_unfolding_all decide

/-- C9 (amended): calling classification twice with identical arguments
and no intervening calibration or arc update yields identical category and
confidence provided no context window is supplied — with a context window,
the first call itself appends an arc entry that can change the second
result of the second call. -/
theorem C9_idempotent_without_context (text : List Char) (sentimentScore : ℚ)
    (speakerId : String) (st : ClassifierState) :
    (classify_emotion text sentimentScore speakerId none
          (classify_emotion text sentimentScore speakerId none st).2).1.category =
        (classify_emotion text sentimentScore speakerId none st).1.category ∧
      (classify_emotion text sentimentScore speakerId none
          (classify_emotion text sentimentScore speakerId none st).2).1.confidence =
        (classify_emotion text sentimentScore speakerId none st).1.confidence := by
  simp only [classify_emotion]
  split_ifs
  · exact ⟨rfl, rfl⟩
  · exact ⟨rfl, rfl⟩
  · dsimp only
    rw [mainCategoryScores_none_stable]
    exact ⟨rfl, rfl⟩

/-- C10 (confirmed): for every occurrence recorded by the pattern matcher,
if the ±20-character context window around the occurrence contains the
substring "not" or "never", the effective score is weight × (−1.0) —
negation is decided before intensification (the `elif`), so the 1.5 factor
is never combined with the sign flip, whatever else the window contains. -/
theorem C10_negation_precedence (text : List Char) (p : LinguisticPattern) (i j : Nat)
    (sc : ℚ) (hmem : (p, i, j, sc) ∈ detect_patterns_spans text)
    (hneg : (sIn "not" (windowOf text i j) || sIn "never" (windowOf text i j)) = true) :
    sc = p.weight * (-1.0) := by
  simp only [detect_patterns_spans, List.mem_flatMap, List.mem_map] at hmem
  obtain ⟨q, -, se, -, heq⟩ := hmem
  simp only [Prod.mk.injEq] at heq
  obtain ⟨rfl, rfl, rfl, rfl⟩ := heq
  simp only [contextScore, hneg, if_true]

/-- C10 (witness): in the text "not very happy" the happiness pattern
matches at span (9, 14) with window containing both "not" and "very", and
its recorded score is −0.9 = 0.9 × (−1). -/
theorem C10_witness :
    ((hope_patterns.getD 0 ⟨Re.lit [], 0, EmotionCategory.hope, ""⟩, 9, 14,
          (-9 : ℚ) / 10) ∈ detect_patterns_spans "not very happy".data ∧
        (sIn "not" (windowOf "not very happy".data 9 14) ||
          sIn "never" (windowOf "not very happy".data 9 14)) = true) ∧
      (-9 : ℚ) / 10 =
        (hope_patterns.getD 0 ⟨Re.lit [], 0, EmotionCategory.hope, ""⟩).weight * (-1.0) :=
  ⟨⟨by with_unfolding_all decide, by decide⟩,
    C10_negation_precedence "not very happy".data
      (hope_patterns.getD 0 ⟨Re.lit [], 0, EmotionCategory.hope, ""⟩) 9 14 ((-9 : ℚ) / 10)
      (by with_unfolding_all decide) (by decide)⟩
